import Mathlib

/-!
Shallow embedding of `src/cli.py` from the wayland repository, a
project-scaffolding CLI: a TCP port scanner (`is_port_in_use`,
`find_next_available_port`), a development-server launcher
(`run_uvicorn`), a template-copying scaffolder (`create_app_directory`)
and a two-command dispatcher (`main`).

The OS-dependent port probe `is_port_in_use` is modelled as an oracle
`inUse : Nat → Bool`; the filesystem is modelled as an explicit state
(a list of directory paths and a list of file path/content pairs);
fallible OS calls inside the scaffolder are driven by an error oracle
`err : Nat → Option String` giving, per step index, the exception
message raised there (if any).  The unbounded `while` loop of
`find_next_available_port` is embedded with explicit fuel, returning
`none` when the fuel runs out (the loop would still be running).
-/

namespace Wayland

/-- Embedding of the `while is_port_in_use(port): port += 1` loop of
`find_next_available_port` in `src/cli.py`, with `is_port_in_use`
abstracted as the oracle `inUse` and fuel bounding the number of
iterations observed. -/
def find_next_available_port (inUse : Nat → Bool) : Nat → Nat → Option Nat
  | 0, _ => none
  | fuel + 1, port => if inUse port then find_next_available_port inUse fuel (port + 1) else some port

/-- The sequence of ports probed (passed to `is_port_in_use`) by the
loop of `find_next_available_port`, in the order the loop probes them. -/
def find_probes (inUse : Nat → Bool) : Nat → Nat → List Nat
  | 0, _ => []
  | fuel + 1, port => if inUse port then port :: find_probes inUse fuel (port + 1) else [port]

theorem find_sound (inUse : Nat → Bool) :
    ∀ fuel p q, find_next_available_port inUse fuel p = some q →
      p ≤ q ∧ inUse q = false ∧ ∀ r, p ≤ r → r < q → inUse r = true := by
  intro fuel
  induction fuel with
  | zero => intro p q h; simp [find_next_available_port] at h
  | succ n ih =>
    intro p q h
    by_cases hp : inUse p = true
    · simp [find_next_available_port, hp] at h
      obtain ⟨h1, h2, h3⟩ := ih (p + 1) q h
      refine ⟨Nat.le_of_succ_le h1, h2, ?_⟩
      intro r hr1 hr2
      rcases Nat.eq_or_lt_of_le hr1 with heq | hlt
      · rw [← heq]; exact hp
      · exact h3 r hlt hr2
    · simp at hp
      simp [find_next_available_port, hp] at h
      subst h
      exact ⟨Nat.le_refl p, hp, fun r hr1 hr2 => absurd (Nat.lt_of_le_of_lt hr1 hr2) (Nat.lt_irrefl p)⟩

theorem find_probes_eq (inUse : Nat → Bool) :
    ∀ fuel p q, find_next_available_port inUse fuel p = some q →
      find_probes inUse fuel p = List.range' p (q - p) ++ [q] := by
  intro fuel
  induction fuel with
  | zero => intro p q h; simp [find_next_available_port] at h
  | succ n ih =>
    intro p q h
    by_cases hp : inUse p = true
    · simp [find_next_available_port, hp] at h
      have hle : p + 1 ≤ q := (find_sound inUse n (p + 1) q h).1
      have := ih (p + 1) q h
      simp [find_probes, hp, this]
      have hq : q - p = (q - (p + 1)) + 1 := by omega
      rw [hq, List.range'_succ]
      simp
    · simp at hp
      simp [find_next_available_port, hp] at h
      subst h
      simp [find_probes, hp]

theorem find_complete (inUse : Nat → Bool) :
    ∀ n p, inUse (p + n) = false →
      ∃ q, find_next_available_port inUse (n + 1) p = some q := by
  intro n
  induction n with
  | zero =>
    intro p h
    simp at h
    exact ⟨p, by simp [find_next_available_port, h]⟩
  | succ m ih =>
    intro p h
    by_cases hp : inUse p = true
    · have : p + (m + 1) = (p + 1) + m := by omega
      rw [this] at h
      obtain ⟨q, hq⟩ := ih (p + 1) h
      have hstep : find_next_available_port inUse (m + 1 + 1) p =
          find_next_available_port inUse (m + 1) (p + 1) := by
        rw [find_next_available_port]
        simp [hp]
      exact ⟨q, by rw [hstep]; exact hq⟩
    · simp at hp
      exact ⟨p, by simp [find_next_available_port, hp]⟩

/-- Claim C1: for every starting port `p`, when the scan of
`find_next_available_port` returns a port `q`, then `q` is the smallest
port `≥ p` that `is_port_in_use` reports free, every port in `[p, q)`
is probed in increasing order and found in use, and the probe sequence
is exactly `p, p+1, ..., q`. -/
theorem find_next_available_port_correct (inUse : Nat → Bool) (fuel p q : Nat)
    (h : find_next_available_port inUse fuel p = some q) :
    p ≤ q ∧ inUse q = false ∧
      (∀ r, p ≤ r → r < q → inUse r = true) ∧
      (∀ r, p ≤ r → inUse r = false → q ≤ r) ∧
      find_probes inUse fuel p = List.range' p (q - p) ++ [q] := by
  obtain ⟨h1, h2, h3⟩ := find_sound inUse fuel p q h
  refine ⟨h1, h2, h3, ?_, find_probes_eq inUse fuel p q h⟩
  intro r hr1 hr2
  by_contra hlt
  simp at hlt
  have := h3 r hr1 hlt
  rw [this] at hr2
  exact Bool.true_eq_false.mp hr2

theorem find_next_available_port_correct_witness :
    (fun n => decide (n < 8002) : Nat → Bool) 8003 = false ∧
      8000 ≤ 8002 ∧ (fun n => decide (n < 8002) : Nat → Bool) 8002 = false := by
  have h : find_next_available_port (fun n => decide (n < 8002)) 5 8000 = some 8002 := by decide
  have := find_next_available_port_correct (fun n => decide (n < 8002)) 5 8000 8002 h
  exact ⟨by decide, this.1, this.2.1⟩

/-- Claim C2: the port scan terminates (some amount of fuel makes the
embedded loop return) exactly when some port `q ≥ p` is reported free
by `is_port_in_use`; in particular the spec's unconditional boundedness
holds under that hypothesis and under no weaker one. -/
theorem find_next_available_port_terminates_iff (inUse : Nat → Bool) (p : Nat) :
    (∃ fuel q, find_next_available_port inUse fuel p = some q) ↔
      ∃ q, p ≤ q ∧ inUse q = false := by
  constructor
  · rintro ⟨fuel, q, h⟩
    obtain ⟨h1, h2, _⟩ := find_sound inUse fuel p q h
    exact ⟨q, h1, h2⟩
  · rintro ⟨q, hle, hfree⟩
    have : inUse (p + (q - p)) = false := by
      have : p + (q - p) = q := by omega
      rw [this]; exact hfree
    obtain ⟨r, hr⟩ := find_complete inUse (q - p) p this
    exact ⟨q - p + 1, r, hr⟩

/-- Whitespace as Python `str.strip()` strips it: every character with
`str.isspace()` true, i.e. U+0009-U+000D, U+001C-U+001F, space, U+0085,
U+00A0, U+1680, U+2000-U+200A, U+2028, U+2029, U+202F, U+205F, U+3000. -/
def pyIsSpace (c : Char) : Bool :=
  c = ' ' || c = '\t' || c = '\n' || c = '\x0b' || c = '\x0c' || c = '\r' ||
  (0x1c ≤ c.toNat && c.toNat ≤ 0x1f) || c.toNat = 0x85 || c.toNat = 0xa0 ||
  c.toNat = 0x1680 || (0x2000 ≤ c.toNat && c.toNat ≤ 0x200a) ||
  c.toNat = 0x2028 || c.toNat = 0x2029 || c.toNat = 0x202f || c.toNat = 0x205f ||
  c.toNat = 0x3000

/-- Python `str.strip()`: drop leading and trailing whitespace. -/
def pyStrip (s : String) : String :=
  ⟨((s.data.dropWhile pyIsSpace).reverse.dropWhile pyIsSpace).reverse⟩

/-- Python `str.lower()` (on the ASCII range relevant here). -/
def pyLower (s : String) : String :=
  ⟨s.data.map Char.toLower⟩

/-- Outcome of one call to `run_uvicorn`: the command line of the
subprocess started (if any), the URL opened in the browser (if any),
and the messages printed, in order. -/
structure UvicornOutcome where
  launched : Option (List String)
  opened : Option String
  output : List String
deriving DecidableEq

/-- The fixed uvicorn command line built at `src/cli.py:46`. -/
def uvicornCmd (port : Nat) : List String :=
  ["uvicorn", "app:app", "--reload", "--port", toString port]

/-- The common tail of `run_uvicorn` (`src/cli.py:45-50`): print the
start message, spawn the subprocess, print and open the URL.  `pre` is
the output accumulated before reaching it. -/
def launchOutcome (pre : List String) (port : Nat) : UvicornOutcome :=
  { launched := some (uvicornCmd port)
  , opened := some ("http://localhost:" ++ toString port)
  , output := pre ++ ["Starting Uvicorn on port " ++ toString port ++ "..."
                     , "Opening http://localhost:" ++ toString port ++ " in your default browser"] }

/-- Embedding of `run_uvicorn` from `src/cli.py`.  `inUse` abstracts
`is_port_in_use`, `userInput` is what `input()` returns, and `fuel`
bounds the renegotiation port scan; the result is `none` when that scan
does not terminate within the fuel. -/
def run_uvicorn (inUse : Nat → Bool) (userInput : String) (fuel : Nat) (port : Nat) :
    Option UvicornOutcome :=
  if inUse port then
    let pre := ["Port " ++ toString port ++ " is already in use."]
    if pyLower (pyStrip userInput) = "y" then
      match find_next_available_port inUse fuel (port + 1) with
      | some p => some (launchOutcome (pre ++ ["Using port " ++ toString p ++ " instead."]) p)
      | none => none
    else
      some { launched := none, opened := none
           , output := pre ++ ["User declined to use another port. Exiting."] }
  else
    some (launchOutcome [] port)

/-- Claim C5: when the requested port is free, `run_uvicorn` starts
exactly one subprocess, with the fixed uvicorn command line for that
port, and opens `http://localhost:<port>` in the browser. -/
theorem run_uvicorn_port_free (inUse : Nat → Bool) (userInput : String) (fuel port : Nat)
    (h : inUse port = false) :
    ∃ r, run_uvicorn inUse userInput fuel port = some r ∧
      r.launched = some ["uvicorn", "app:app", "--reload", "--port", toString port] ∧
      r.opened = some ("http://localhost:" ++ toString port) := by
  refine ⟨launchOutcome [] port, ?_, rfl, rfl⟩
  simp [run_uvicorn, h]

theorem run_uvicorn_port_free_witness :
    (fun _ => false : Nat → Bool) 8000 = false ∧
      ∃ r, run_uvicorn (fun _ => false) "" 0 8000 = some r ∧
        r.launched = some ["uvicorn", "app:app", "--reload", "--port", toString 8000] ∧
        r.opened = some ("http://localhost:" ++ toString 8000) :=
  ⟨rfl, run_uvicorn_port_free (fun _ => false) "" 0 8000 rfl⟩

/-- Claim C6: on every execution path of `run_uvicorn` that starts a
subprocess, whatever the port ends up being, the command line passed to
the subprocess contains the `--reload` flag. -/
theorem run_uvicorn_always_reload (inUse : Nat → Bool) (userInput : String) (fuel port : Nat)
    (r : UvicornOutcome) (cmd : List String)
    (hr : run_uvicorn inUse userInput fuel port = some r)
    (hcmd : r.launched = some cmd) :
    "--reload" ∈ cmd := by
  unfold run_uvicorn at hr
  by_cases hbusy : inUse port = true
  · simp [hbusy] at hr
    by_cases hy : pyLower (pyStrip userInput) = "y"
    · simp [hy] at hr
      rcases hfind : find_next_available_port inUse fuel (port + 1) with _ | p
      · rw [hfind] at hr; simp at hr
      · rw [hfind] at hr; simp at hr
        rw [← hr] at hcmd
        simp [launchOutcome] at hcmd
        rw [← hcmd]
        simp [uvicornCmd]
    · simp [hy] at hr
      rw [← hr] at hcmd
      simp at hcmd
  · simp at hbusy
    simp [hbusy] at hr
    rw [← hr] at hcmd
    simp [launchOutcome] at hcmd
    rw [← hcmd]
    simp [uvicornCmd]

theorem run_uvicorn_always_reload_witness : "--reload" ∈ uvicornCmd 8000 :=
  run_uvicorn_always_reload (fun _ => false) "" 0 8000 (launchOutcome [] 8000)
    (uvicornCmd 8000) (by decide) rfl

/-- Claim C8: when the requested port is in use, `run_uvicorn` starts a
subprocess only if the reply, stripped and lowercased, is exactly "y";
for any other reply it returns having started no subprocess and opened
no browser. -/
theorem run_uvicorn_busy_requires_y (inUse : Nat → Bool) (userInput : String) (fuel port : Nat)
    (hbusy : inUse port = true) :
    (∀ r, run_uvicorn inUse userInput fuel port = some r →
        r.launched.isSome = true → pyLower (pyStrip userInput) = "y") ∧
      (pyLower (pyStrip userInput) ≠ "y" →
        run_uvicorn inUse userInput fuel port =
          some { launched := none, opened := none
               , output := ["Port " ++ toString port ++ " is already in use."
                           , "User declined to use another port. Exiting."] }) := by
  constructor
  · intro r hr hl
    by_contra hy
    simp [run_uvicorn, hbusy, hy] at hr
    rw [← hr] at hl
    simp at hl
  · intro hy
    simp [run_uvicorn, hbusy, hy]

theorem run_uvicorn_busy_requires_y_witness :
    (fun _ => true : Nat → Bool) 8000 = true ∧
      run_uvicorn (fun _ => true) "maybe" 0 8000 =
        some { launched := none, opened := none
             , output := ["Port " ++ toString 8000 ++ " is already in use."
                         , "User declined to use another port. Exiting."] } :=
  ⟨rfl, (run_uvicorn_busy_requires_y (fun _ => true) "maybe" 0 8000 rfl).2 (by decide)⟩

/-- The externally visible action selected by `main` (`src/cli.py:117-139`). -/
inductive MainAction where
  | createApp (name : String)
  | runServer (port : Int)
  | printUsage
  | printInvalid
deriving DecidableEq

/-- Embedding of the command dispatch of `main` in `src/cli.py`:
`command` and optional `name` are the parsed positionals, `portArg` the
parsed `--port` value, whose argparse default of 8000 is applied here.
Note `if args.name:` is a Python truthiness test, false for both `None`
and the empty string. -/
def main (command : String) (name : Option String) (portArg : Option Int) : MainAction :=
  let port := portArg.getD 8000
  if command = "new" then
    match name with
    | some n => if n = "" then MainAction.printUsage else MainAction.createApp n
    | none => MainAction.printUsage
  else if command = "run" then
    MainAction.runServer port
  else
    MainAction.printInvalid

/-- Claim C7, counterexample: `main` invoked as `new` with the provided
name `""` does not call `create_app_directory("")`; it prints the usage
message, because `if args.name:` treats the empty string as falsy. -/
theorem main_new_empty_name_cex :
    main "new" (some "") none = MainAction.printUsage ∧
      main "new" (some "") none ≠ MainAction.createApp "" := by
  constructor
  · rfl
  · intro h
    simp [main] at h

/-- Claim C7 (amended: `new <name>` reaches `create_app_directory` only
for a non-empty name; an empty name, like a missing one, prints the
usage message): `new <name>` with non-empty `name` calls
`create_app_directory(name)`; `new` with no name or an empty name
prints the static usage message and creates nothing; `run` calls
`run_uvicorn` with the given port, defaulting to 8000; any other
command word prints the static invalid-command message and performs no
action. -/
theorem main_dispatch (n : String) (p : Int) (c : String) (nm : Option String)
    (hn : n ≠ "") (hc1 : c ≠ "new") (hc2 : c ≠ "run") :
    main "new" (some n) (some p) = MainAction.createApp n ∧
      main "new" none (some p) = MainAction.printUsage ∧
      main "new" (some "") (some p) = MainAction.printUsage ∧
      main "run" nm (some p) = MainAction.runServer p ∧
      main "run" nm none = MainAction.runServer 8000 ∧
      main c nm (some p) = MainAction.printInvalid := by
  refine ⟨?_, rfl, rfl, rfl, rfl, ?_⟩
  · simp [main, hn]
  · simp [main, hc1, hc2]

theorem main_dispatch_witness :
    main "new" (some "myapp") (some 5000) = MainAction.createApp "myapp" ∧
      main "bogus" none (some 5000) = MainAction.printInvalid := by
  have h := main_dispatch "myapp" 5000 "bogus" none (by decide) (by decide) (by decide)
  exact ⟨h.1, h.2.2.2.2.2⟩

/-- A filesystem path, as the list of components `os.path.join` joins. -/
abbrev Path := List String

/-- Abstract filesystem state: the set of directories (as a list of
paths) and the files with their contents. -/
structure FS where
  dirs : List Path
  files : List (Path × String)
deriving DecidableEq

/-- Whether `files` holds an entry for path `p`. -/
def hasKey (files : List (Path × String)) (p : Path) : Bool :=
  files.any (fun e => decide (e.1 = p))

/-- Whether `dirs` holds the directory `p`. -/
def hasDir (dirs : List Path) (p : Path) : Bool :=
  dirs.any (fun d => decide (d = p))

/-- `os.path.exists`: true when `p` is a directory or a file. -/
def pathExists (fs : FS) (p : Path) : Bool :=
  hasDir fs.dirs p || hasKey fs.files p

/-- Write content `c` at path `p`: overwrite the existing entry in
place, or append a new one. -/
def setFile : List (Path × String) → Path → String → List (Path × String)
  | [], p, c => [(p, c)]
  | (q, d) :: rest, p, c =>
    if q = p then (q, c) :: rest else (q, d) :: setFile rest p c

/-- Read the content at path `p`; a missing file reads as empty, which
matches Python append mode creating the file. -/
def getFile : List (Path × String) → Path → String
  | [], _ => ""
  | (q, d) :: rest, p => if q = p then d else getFile rest p

/-- One atomic operation of the `try` block of `create_app_directory`
(`src/cli.py:63-112`). -/
inductive Step where
  | makedirs (p : Path)
  | importTemplates
  | copyTemplate (tmplName : String) (dest : Path)
  | appendFile (dest : Path) (text : String)
deriving DecidableEq

/-- Effect of one step on the filesystem.  `tmpl` gives the content of
each file of the framework's template set; `os.makedirs(exist_ok=True)`
is a no-op on an existing directory; `shutil.copyfile` overwrites;
`importTemplates` only loads a module. -/
def applyStep (tmpl : String → String) (fs : FS) : Step → FS
  | Step.makedirs p =>
    if hasDir fs.dirs p then fs else { fs with dirs := fs.dirs ++ [p] }
  | Step.importTemplates => fs
  | Step.copyTemplate t d => { fs with files := setFile fs.files d (tmpl t) }
  | Step.appendFile d s =>
    { fs with files := setFile fs.files d (getFile fs.files d ++ s) }

/-- The text `create_app_directory` appends to the copied settings.py
(`src/cli.py:75`). -/
def settingsSuffix (name : String) : String :=
  "\n# App-specific settings\nAPP_NAME = \x27" ++ name ++ "\x27\n"

/-- The steps of the `try` block of `create_app_directory`, in source
order (`src/cli.py:63-110`), for the target directory `cwd/name`. -/
def createAppSteps (cwd : Path) (name : String) : List Step :=
  [ Step.makedirs (cwd ++ [name])
  , Step.importTemplates
  , Step.copyTemplate "settings.py" (cwd ++ [name, "settings.py"])
  , Step.appendFile (cwd ++ [name, "settings.py"]) (settingsSuffix name)
  , Step.copyTemplate "main.py" (cwd ++ [name, "main.py"])
  , Step.copyTemplate "app.py" (cwd ++ [name, "app.py"])
  , Step.makedirs (cwd ++ [name, "app"])
  , Step.makedirs (cwd ++ [name, "app", "routes"])
  , Step.makedirs (cwd ++ [name, "app", "static"])
  , Step.copyTemplate "index.py" (cwd ++ [name, "app", "routes", "index.py"])
  , Step.copyTemplate "index.html" (cwd ++ [name, "app", "static", "index.html"])
  , Step.copyTemplate "logo.png" (cwd ++ [name, "app", "static", "logo.png"]) ]

/-- Run steps in order from step index `i`; the error oracle `err`
gives the exception message a step raises (if any), at which point
execution stops with the state reached so far, mirroring the `except`
clause catching the exception. -/
def runSteps (tmpl : String → String) (err : Nat → Option String) :
    List Step → Nat → FS → FS × Option String
  | [], _, fs => (fs, none)
  | s :: rest, i, fs =>
    match err i with
    | some e => (fs, some e)
    | none => runSteps tmpl err rest (i + 1) (applyStep tmpl fs s)

/-- The cumulative effect of a list of steps when none fails. -/
def applySteps (tmpl : String → String) (fs : FS) (steps : List Step) : FS :=
  steps.foldl (applyStep tmpl) fs

/-- Rendering of a path for printed messages. -/
def pathStr (p : Path) : String :=
  String.intercalate "/" p

/-- Embedding of `create_app_directory` from `src/cli.py`: existence
pre-check, then the template-copying steps under the error oracle,
returning the final filesystem and the printed messages.  `fw` is the
`FRAMEWORK_NAME` read from config.toml. -/
def create_app_directory (tmpl : String → String) (fw : String) (cwd : Path) (name : String)
    (err : Nat → Option String) (fs : FS) : FS × List String :=
  let dp := cwd ++ [name]
  if pathExists fs dp then
    (fs, ["app name already exists at this directory"])
  else
    match runSteps tmpl err (createAppSteps cwd name) 0 fs with
    | (fs2, none) => (fs2, ["Created a new " ++ fw ++ " app at " ++ pathStr dp])
    | (fs2, some e) => (fs2, ["An error occurred while creating the directory: " ++ e])

theorem runSteps_ok (tmpl : String → String) (err : Nat → Option String)
    (herr : ∀ j, err j = none) :
    ∀ (steps : List Step) (i : Nat) (fs : FS),
      runSteps tmpl err steps i fs = (applySteps tmpl fs steps, none) := by
  intro steps
  induction steps with
  | nil => intro i fs; simp [runSteps, applySteps]
  | cons s rest ih =>
    intro i fs
    simp [runSteps, herr i, ih (i + 1) (applyStep tmpl fs s), applySteps, List.foldl]

theorem runSteps_fail (tmpl : String → String) (err : Nat → Option String) :
    ∀ (steps : List Step) (i k : Nat) (fs : FS) (e : String),
      k < steps.length → err (i + k) = some e → (∀ j, j < k → err (i + j) = none) →
      runSteps tmpl err steps i fs = (applySteps tmpl fs (steps.take k), some e) := by
  intro steps
  induction steps with
  | nil => intro i k fs e hk; simp at hk
  | cons s rest ih =>
    intro i k fs e hk he hb
    match k with
    | 0 =>
      simp at he
      simp [runSteps, he, applySteps]
    | k + 1 =>
      have h0 : err i = none := by have := hb 0 (Nat.succ_pos k); simpa using this
      have he2 : err ((i + 1) + k) = some e := by
        have : (i + 1) + k = i + (k + 1) := by omega
        rw [this]; exact he
      have hb2 : ∀ j, j < k → err ((i + 1) + j) = none := by
        intro j hj
        have : (i + 1) + j = i + (j + 1) := by omega
        rw [this]
        exact hb (j + 1) (by omega)
      have hk2 : k < rest.length := by simpa using hk
      simp [runSteps, h0, ih (i + 1) k (applyStep tmpl fs s) e hk2 he2 hb2, applySteps,
        List.foldl]

theorem hasKey_append (xs ys : List (Path × String)) (p : Path) :
    hasKey (xs ++ ys) p = (hasKey xs p || hasKey ys p) := by
  simp [hasKey]

theorem hasKey_cons (q : Path) (c : String) (xs : List (Path × String)) (p : Path) :
    hasKey ((q, c) :: xs) p = (decide (q = p) || hasKey xs p) := by
  simp [hasKey]

theorem hasKey_nil (p : Path) : hasKey [] p = false := rfl

theorem hasDir_append (xs ys : List Path) (p : Path) :
    hasDir (xs ++ ys) p = (hasDir xs p || hasDir ys p) := by
  simp [hasDir]

theorem hasDir_cons (q : Path) (xs : List Path) (p : Path) :
    hasDir (q :: xs) p = (decide (q = p) || hasDir xs p) := by
  simp [hasDir]

theorem hasDir_nil (p : Path) : hasDir [] p = false := rfl

theorem setFile_new (xs : List (Path × String)) (p : Path) (c : String)
    (h : hasKey xs p = false) : setFile xs p c = xs ++ [(p, c)] := by
  induction xs with
  | nil => rfl
  | cons e rest ih =>
    match e with
    | (q, d) =>
      rw [hasKey_cons] at h
      simp at h
      simp [setFile, h.1, ih h.2]

theorem setFile_append_right (xs ys : List (Path × String)) (p : Path) (c : String)
    (h : hasKey xs p = false) : setFile (xs ++ ys) p c = xs ++ setFile ys p c := by
  induction xs with
  | nil => rfl
  | cons e rest ih =>
    match e with
    | (q, d) =>
      rw [hasKey_cons] at h
      simp at h
      simp [setFile, h.1, ih h.2]

theorem getFile_append_right (xs ys : List (Path × String)) (p : Path)
    (h : hasKey xs p = false) : getFile (xs ++ ys) p = getFile ys p := by
  induction xs with
  | nil => rfl
  | cons e rest ih =>
    match e with
    | (q, d) =>
      rw [hasKey_cons] at h
      simp at h
      simp [getFile, h.1, ih h.2]

theorem subpath_ne (cwd : Path) (name : String) {s t : List String} (h : s ≠ t) :
    cwd ++ name :: s ≠ cwd ++ name :: t := by
  intro he
  have := List.append_cancel_left he
  simp at this
  exact h this

theorem append_ne_self (s t : String) (ht : t ≠ "") : s ++ t ≠ s := by
  intro h
  apply ht
  have hl := congrArg String.length h
  rw [String.length_append] at hl
  have h0 : t.length = 0 := by omega
  cases t with
  | mk data =>
    cases data with
    | nil => rfl
    | cons c cs => simp [String.length] at h0

theorem settingsSuffix_ne_empty (name : String) : settingsSuffix name ≠ "" := by
  intro h
  have hl := congrArg String.length h
  simp [settingsSuffix, String.length_append] at hl
  exact absurd hl.1.1 (by decide)

/-- The filesystem produced by the full, failure-free step sequence of
`create_app_directory` on a filesystem where nothing exists at or
below `cwd/name`. -/
theorem applySteps_create (tmpl : String → String) (cwd : Path) (name : String) (fs : FS)
    (hd : ∀ s : List String, hasDir fs.dirs (cwd ++ name :: s) = false)
    (hk : ∀ s : List String, hasKey fs.files (cwd ++ name :: s) = false) :
    applySteps tmpl fs (createAppSteps cwd name) =
      { dirs := fs.dirs ++ [cwd ++ [name], cwd ++ [name, "app"],
          cwd ++ [name, "app", "routes"], cwd ++ [name, "app", "static"]],
        files := fs.files ++ [
          (cwd ++ [name, "settings.py"], tmpl "settings.py" ++ settingsSuffix name),
          (cwd ++ [name, "main.py"], tmpl "main.py"),
          (cwd ++ [name, "app.py"], tmpl "app.py"),
          (cwd ++ [name, "app", "routes", "index.py"], tmpl "index.py"),
          (cwd ++ [name, "app", "static", "index.html"], tmpl "index.html"),
          (cwd ++ [name, "app", "static", "logo.png"], tmpl "logo.png")] } := by
  have ndA : cwd ++ [name] ≠ cwd ++ [name, "app"] := subpath_ne cwd name (by decide)
  have ndR : cwd ++ [name] ≠ cwd ++ [name, "app", "routes"] := subpath_ne cwd name (by decide)
  have ndS : cwd ++ [name] ≠ cwd ++ [name, "app", "static"] := subpath_ne cwd name (by decide)
  have nAR : cwd ++ [name, "app"] ≠ cwd ++ [name, "app", "routes"] :=
    subpath_ne cwd name (by decide)
  have nAS : cwd ++ [name, "app"] ≠ cwd ++ [name, "app", "static"] :=
    subpath_ne cwd name (by decide)
  have nRS : cwd ++ [name, "app", "routes"] ≠ cwd ++ [name, "app", "static"] :=
    subpath_ne cwd name (by decide)
  have f1 : cwd ++ [name, "settings.py"] ≠ cwd ++ [name, "main.py"] :=
    subpath_ne cwd name (by decide)
  have f2 : cwd ++ [name, "settings.py"] ≠ cwd ++ [name, "app.py"] :=
    subpath_ne cwd name (by decide)
  have f3 : cwd ++ [name, "main.py"] ≠ cwd ++ [name, "app.py"] :=
    subpath_ne cwd name (by decide)
  have f4 : cwd ++ [name, "settings.py"] ≠ cwd ++ [name, "app", "routes", "index.py"] :=
    subpath_ne cwd name (by decide)
  have f5 : cwd ++ [name, "main.py"] ≠ cwd ++ [name, "app", "routes", "index.py"] :=
    subpath_ne cwd name (by decide)
  have f6 : cwd ++ [name, "app.py"] ≠ cwd ++ [name, "app", "routes", "index.py"] :=
    subpath_ne cwd name (by decide)
  have f7 : cwd ++ [name, "settings.py"] ≠ cwd ++ [name, "app", "static", "index.html"] :=
    subpath_ne cwd name (by decide)
  have f8 : cwd ++ [name, "main.py"] ≠ cwd ++ [name, "app", "static", "index.html"] :=
    subpath_ne cwd name (by decide)
  have f9 : cwd ++ [name, "app.py"] ≠ cwd ++ [name, "app", "static", "index.html"] :=
    subpath_ne cwd name (by decide)
  have f10 : cwd ++ [name, "app", "routes", "index.py"] ≠
      cwd ++ [name, "app", "static", "index.html"] := subpath_ne cwd name (by decide)
  have f11 : cwd ++ [name, "settings.py"] ≠ cwd ++ [name, "app", "static", "logo.png"] :=
    subpath_ne cwd name (by decide)
  have f12 : cwd ++ [name, "main.py"] ≠ cwd ++ [name, "app", "static", "logo.png"] :=
    subpath_ne cwd name (by decide)
  have f13 : cwd ++ [name, "app.py"] ≠ cwd ++ [name, "app", "static", "logo.png"] :=
    subpath_ne cwd name (by decide)
  have f14 : cwd ++ [name, "app", "routes", "index.py"] ≠
      cwd ++ [name, "app", "static", "logo.png"] := subpath_ne cwd name (by decide)
  have f15 : cwd ++ [name, "app", "static", "index.html"] ≠
      cwd ++ [name, "app", "static", "logo.png"] := subpath_ne cwd name (by decide)
  simp only [createAppSteps, applySteps, List.foldl]
  simp [applyStep, hasDir_append, hasDir_cons, hasDir_nil, hasKey_append, hasKey_cons,
    hasKey_nil, hd, hk, ndA, ndR, ndS, nAR, nAS, nRS, f1, f2, f3, f4, f5, f6, f7, f8, f9,
    f10, f11, f12, f13, f14, f15, setFile_new, setFile_append_right, getFile_append_right,
    setFile, getFile, FS.mk.injEq]

/-- Closed form of a failure-free `create_app_directory` run on a
filesystem where nothing exists at or below `cwd/name`. -/
theorem create_app_run (tmpl : String → String) (fw : String) (cwd : Path) (name : String)
    (err : Nat → Option String) (fs : FS)
    (hfresh : ∀ s : List String, pathExists fs (cwd ++ name :: s) = false)
    (herr : ∀ j, err j = none) :
    create_app_directory tmpl fw cwd name err fs =
      ({ dirs := fs.dirs ++ [cwd ++ [name], cwd ++ [name, "app"],
           cwd ++ [name, "app", "routes"], cwd ++ [name, "app", "static"]],
         files := fs.files ++ [
           (cwd ++ [name, "settings.py"], tmpl "settings.py" ++ settingsSuffix name),
           (cwd ++ [name, "main.py"], tmpl "main.py"),
           (cwd ++ [name, "app.py"], tmpl "app.py"),
           (cwd ++ [name, "app", "routes", "index.py"], tmpl "index.py"),
           (cwd ++ [name, "app", "static", "index.html"], tmpl "index.html"),
           (cwd ++ [name, "app", "static", "logo.png"], tmpl "logo.png")] },
       ["Created a new " ++ fw ++ " app at " ++ pathStr (cwd ++ [name])]) := by
  have hd : ∀ s : List String, hasDir fs.dirs (cwd ++ name :: s) = false := by
    intro s
    have := hfresh s
    simp [pathExists] at this
    exact this.1
  have hk : ∀ s : List String, hasKey fs.files (cwd ++ name :: s) = false := by
    intro s
    have := hfresh s
    simp [pathExists] at this
    exact this.2
  have h0 : pathExists fs (cwd ++ [name]) = false := hfresh []
  simp [create_app_directory, h0, runSteps_ok tmpl err herr,
    applySteps_create tmpl cwd name fs hd hk]

/-- Claim C3: when nothing exists at or below the target directory and
every directory creation and file copy succeeds, `create_app_directory`
creates in the current working directory a directory `name` containing
exactly the fixed template tree: settings.py, main.py and app.py at the
top level, `app/` with `routes/` (holding index.py) and `static/`
(holding index.html and logo.png), each file taken from the framework's
template set. -/
theorem create_app_directory_success (tmpl : String → String) (fw : String) (cwd : Path)
    (name : String) (err : Nat → Option String) (fs : FS)
    (hfresh : ∀ s : List String, pathExists fs (cwd ++ name :: s) = false)
    (herr : ∀ j, err j = none) :
    create_app_directory tmpl fw cwd name err fs =
      ({ dirs := fs.dirs ++ [cwd ++ [name], cwd ++ [name, "app"],
           cwd ++ [name, "app", "routes"], cwd ++ [name, "app", "static"]],
         files := fs.files ++ [
           (cwd ++ [name, "settings.py"], tmpl "settings.py" ++ settingsSuffix name),
           (cwd ++ [name, "main.py"], tmpl "main.py"),
           (cwd ++ [name, "app.py"], tmpl "app.py"),
           (cwd ++ [name, "app", "routes", "index.py"], tmpl "index.py"),
           (cwd ++ [name, "app", "static", "index.html"], tmpl "index.html"),
           (cwd ++ [name, "app", "static", "logo.png"], tmpl "logo.png")] },
       ["Created a new " ++ fw ++ " app at " ++ pathStr (cwd ++ [name])]) :=
  create_app_run tmpl fw cwd name err fs hfresh herr

theorem create_app_directory_success_witness :
    create_app_directory (fun t => "tmpl:" ++ t) "W" [] "blog" (fun _ => none) ⟨[], []⟩ =
      ({ dirs := [["blog"], ["blog", "app"], ["blog", "app", "routes"],
           ["blog", "app", "static"]],
         files := [
           (["blog", "settings.py"], "tmpl:settings.py" ++ settingsSuffix "blog"),
           (["blog", "main.py"], "tmpl:main.py"),
           (["blog", "app.py"], "tmpl:app.py"),
           (["blog", "app", "routes", "index.py"], "tmpl:index.py"),
           (["blog", "app", "static", "index.html"], "tmpl:index.html"),
           (["blog", "app", "static", "logo.png"], "tmpl:logo.png")] },
       ["Created a new W app at " ++ pathStr ["blog"]]) := by
  have h := create_app_directory_success (fun t => "tmpl:" ++ t) "W" [] "blog"
    (fun _ => none) ⟨[], []⟩ (fun _ => rfl) (fun _ => rfl)
  simpa using h

/-- Claim C4: when a file or directory named `name` already exists in
the current working directory, `create_app_directory` prints the
already-exists message and returns at once, leaving the filesystem
unchanged. -/
theorem create_app_directory_precheck (tmpl : String → String) (fw : String) (cwd : Path)
    (name : String) (err : Nat → Option String) (fs : FS)
    (h : pathExists fs (cwd ++ [name]) = true) :
    create_app_directory tmpl fw cwd name err fs =
      (fs, ["app name already exists at this directory"]) := by
  simp [create_app_directory, h]

theorem create_app_directory_precheck_witness :
    create_app_directory (fun t => t) "W" ["home"] "blog" (fun _ => none)
        ⟨[["home", "blog"]], []⟩ =
      (⟨[["home", "blog"]], []⟩, ["app name already exists at this directory"]) :=
  create_app_directory_precheck (fun t => t) "W" ["home"] "blog" (fun _ => none)
    ⟨[["home", "blog"]], []⟩ (by decide)

/-- Claim C9: `create_app_directory` is non-atomic on error but never
raises: if the step at index `k` of the `try` block raises with message
`e` and all earlier steps succeed, the exception is caught, a message
containing the error is printed, the function returns normally, and the
filesystem holds exactly what the first `k` steps created. -/
theorem create_app_directory_error (tmpl : String → String) (fw : String) (cwd : Path)
    (name : String) (err : Nat → Option String) (fs : FS) (k : Nat) (e : String)
    (hne : pathExists fs (cwd ++ [name]) = false)
    (hk : k < (createAppSteps cwd name).length)
    (he : err k = some e)
    (hb : ∀ j, j < k → err j = none) :
    create_app_directory tmpl fw cwd name err fs =
      (applySteps tmpl fs ((createAppSteps cwd name).take k),
       ["An error occurred while creating the directory: " ++ e]) := by
  have hrun := runSteps_fail tmpl err (createAppSteps cwd name) 0 k fs e hk
    (by simpa using he) (by intro j hj; simpa using hb j hj)
  simp [create_app_directory, hne, hrun]

theorem create_app_directory_error_witness :
    create_app_directory (fun t => t) "W" [] "blog"
        (fun j => if j = 2 then some "boom" else none) ⟨[], []⟩ =
      (⟨[["blog"]], []⟩, ["An error occurred while creating the directory: boom"]) := by
  have h := create_app_directory_error (fun t => t) "W" [] "blog"
    (fun j => if j = 2 then some "boom" else none) ⟨[], []⟩ 2 "boom" rfl (by decide) rfl
    (by
      intro j hj
      rcases j with _ | j0
      · rfl
      · rcases j0 with _ | j1
        · rfl
        · omega)
  rw [h]
  decide

/-- Claim C10: the settings.py placed in a newly created app directory
is not a byte-for-byte copy of the template: for every app name it
equals the template settings.py content followed by the suffix
appending `APP_NAME = <name>` (the name interpolated unescaped). -/
theorem settings_not_plain_copy (tmpl : String → String) (fw : String) (cwd : Path)
    (name : String) (err : Nat → Option String) (fs : FS)
    (hfresh : ∀ s : List String, pathExists fs (cwd ++ name :: s) = false)
    (herr : ∀ j, err j = none) :
    getFile (create_app_directory tmpl fw cwd name err fs).1.files
        (cwd ++ [name, "settings.py"]) =
      tmpl "settings.py" ++ settingsSuffix name ∧
    getFile (create_app_directory tmpl fw cwd name err fs).1.files
        (cwd ++ [name, "settings.py"]) ≠ tmpl "settings.py" := by
  have hkS : hasKey fs.files (cwd ++ [name, "settings.py"]) = false := by
    have := hfresh ["settings.py"]
    simp [pathExists] at this
    exact this.2
  rw [create_app_run tmpl fw cwd name err fs hfresh herr]
  dsimp only
  rw [getFile_append_right _ _ _ hkS]
  constructor
  · simp [getFile]
  · simp [getFile]
    exact append_ne_self (tmpl "settings.py") (settingsSuffix name) (settingsSuffix_ne_empty name)

theorem settings_not_plain_copy_witness :
    getFile (create_app_directory (fun t => "c-" ++ t) "W" [] "news" (fun _ => none)
        ⟨[], []⟩).1.files ["news", "settings.py"] =
      "c-settings.py" ++ settingsSuffix "news" ∧
    getFile (create_app_directory (fun t => "c-" ++ t) "W" [] "news" (fun _ => none)
        ⟨[], []⟩).1.files ["news", "settings.py"] ≠ "c-settings.py" :=
  settings_not_plain_copy (fun t => "c-" ++ t) "W" [] "news" (fun _ => none) ⟨[], []⟩
    (fun _ => rfl) (fun _ => rfl)

end Wayland
